import Mathlib

/-!
Verification of the URL-shortener core (shorter_links).

The store is a SQLite table `urls` with columns
`id, original_url, short_code, created_at, expires_at, clicks, is_active`;
we embed it as a list of records in insertion (rowid) order together with
the next auto-assigned id.  Each `Database` method and each route handler
of `src/api/routes/urls.py` is translated to a Lean function on this state.
-/

/-- One row of the `urls` table (`init_db` in `src/core/database.py`):
`clicks` defaults to 0 and `is_active` to 1 (true) at insertion. -/
structure URLRecord where
  id : Nat
  original_url : String
  short_code : String
  created_at : String
  expires_at : Option String
  clicks : Nat
  is_active : Bool
deriving Repr, DecidableEq

/-- The persistent state: rows in insertion order plus the next
auto-increment id. -/
structure DB where
  rows : List URLRecord
  nextId : Nat
deriving Repr, DecidableEq

/-! ## Configuration (`src/core/config.py`, default `Settings`) -/

def min_short_code_length : Nat := 3

def max_short_code_length : Nat := 20

def default_short_code_length : Nat := 6

/-! ## Shortener utilities (`src/utils/shortener.py`) -/

/-- A character of the alphabet `[A-Za-z0-9]` (`string.ascii_letters +
string.digits`). -/
def isAlnumChar (c : Char) : Bool :=
  (('a' ≤ c && c ≤ 'z') || ('A' ≤ c && c ≤ 'Z') || ('0' ≤ c && c ≤ '9'))

/-- Python's `re.match(r"^[a-zA-Z0-9]+$", s)` as a boolean: without
`re.MULTILINE`, `$` matches at the end of the string or just before a
single newline at the very end, so the regex accepts a non-empty
alphanumeric run optionally followed by one trailing newline. -/
def matchAlnumLine (s : String) : Bool :=
  let cs := s.data
  let ds := if cs.getLast? = some '\n' then cs.dropLast else cs
  !ds.isEmpty && ds.all isAlnumChar

/-- `validate_short_code` (`src/utils/shortener.py:34`): false on the empty
string, false when the length is outside
`[min_short_code_length, max_short_code_length]`, false when
`re.match(r"^[a-zA-Z0-9]+$", code)` fails, true otherwise. -/
def validate_short_code (code : String) : Bool :=
  if code.isEmpty then false
  else if code.length < min_short_code_length || code.length > max_short_code_length then false
  else if !matchAlnumLine code then false
  else true

/-- `normalize_url` (`src/utils/shortener.py:52`): strip surrounding
whitespace; if the result lacks an `http://`/`https://` scheme, prepend
`https://`. -/
def normalize_url (url : String) : String :=
  let u := url.trim
  if u.startsWith "http://" || u.startsWith "https://" then u
  else "https://" ++ u

/-- `is_url_expired` (`src/utils/shortener.py:67`).  Timestamps are opaque
strings; `datetime.fromisoformat` (standard library, outside this
repository) is passed in as `fromiso : String → Option Int`, returning the
parsed instant or `none` on `ValueError`, and the current instant is `now`.
The Python code returns false when `expires_at` is falsy (`None` or `""`),
parses `expires_at.replace("Z", "+00:00")`, swallows parse failures as
false, and otherwise returns `datetime.now(tz) > expire_time`, i.e. whether
the current instant is strictly later. -/
def is_url_expired (fromiso : String → Option Int) (now : Int)
    (expires_at : Option String) : Bool :=
  match expires_at with
  | none => false
  | some s =>
    if s.isEmpty then false
    else
      match fromiso (s.replace "Z" "+00:00") with
      | none => false
      | some t => decide (t < now)

/-- `create_short_url` (`src/utils/shortener.py:87`): base URL with the
trailing slashes stripped, a `/`, then the code. -/
def create_short_url (base_url short_code : String) : String :=
  (base_url.dropRightWhile (· = '/')) ++ "/" ++ short_code

/-! ## Database operations (`src/core/database.py`) -/

/-- `Database.get_url_by_code` (`src/core/database.py:113`):
`SELECT * FROM urls WHERE short_code = ? AND is_active = 1`, then
`results[0] if results else None` (rows scanned in rowid order). -/
def get_url_by_code (db : DB) (short_code : String) : Option URLRecord :=
  (db.rows.filter (fun r => r.short_code == short_code && r.is_active)).head?

/-- `Database.url_exists` (`src/core/database.py:218`):
`SELECT 1 FROM urls WHERE short_code = ?` — no `is_active` filter, so the
check ranges over soft-deleted rows too. -/
def url_exists (db : DB) (short_code : String) : Bool :=
  db.rows.any (fun r => r.short_code == short_code)

/-- `Database.create_url` (`src/core/database.py:139`):
`INSERT INTO urls (original_url, short_code, expires_at) VALUES (?, ?, ?)`
— `clicks` and `is_active` take their defaults 0 and 1, `id` the next
auto-increment value, `created_at` the current timestamp `now`.  The
`UNIQUE` constraint on `short_code` makes the insert raise
`sqlite3.IntegrityError` (re-raised by `execute`) when the code is already
present, modelled as `none`; on success the method returns
`get_url_by_code(short_code)` on the new state. -/
def create_url (db : DB) (original_url short_code : String)
    (expires_at : Option String) (now : String) :
    Option (DB × Option URLRecord) :=
  if url_exists db short_code then none
  else
    let db2 : DB :=
      { rows := db.rows ++
          [{ id := db.nextId, original_url := original_url,
             short_code := short_code, created_at := now,
             expires_at := expires_at, clicks := 0, is_active := true }],
        nextId := db.nextId + 1 }
    some (db2, get_url_by_code db2 short_code)

/-- `Database.update_url` (`src/core/database.py:160`):
`UPDATE urls SET original_url = ? WHERE short_code = ?` (no `is_active`
filter), then return `get_url_by_code(short_code)`. -/
def update_url (db : DB) (short_code new_original_url : String) :
    DB × Option URLRecord :=
  let db2 : DB :=
    { db with rows := db.rows.map (fun r =>
        if r.short_code == short_code then
          { r with original_url := new_original_url } else r) }
  (db2, get_url_by_code db2 short_code)

/-- `Database.delete_url` (`src/core/database.py:177`):
`UPDATE urls SET is_active = 0 WHERE short_code = ?`, returning
`cursor.rowcount > 0`.  SQLite's change counter counts every row matched by
the `UPDATE`'s `WHERE` clause, including rows whose `is_active` was already
0, so the boolean is exactly "some row has this short code". -/
def delete_url (db : DB) (short_code : String) : DB × Bool :=
  ({ db with rows := db.rows.map (fun r =>
       if r.short_code == short_code then { r with is_active := false } else r) },
   db.rows.any (fun r => r.short_code == short_code))

/-- `Database.increment_clicks` (`src/core/database.py:200`):
`UPDATE urls SET clicks = clicks + 1 WHERE short_code = ?` — no
`is_active` filter. -/
def increment_clicks (db : DB) (short_code : String) : DB :=
  { db with rows := db.rows.map (fun r =>
      if r.short_code == short_code then { r with clicks := r.clicks + 1 } else r) }

/-! ## Route handlers (`src/api/routes/urls.py`)

Each handler is a function from the injected database state to the new
state and an HTTP-level outcome: `ok` carries the handler's successful
payload, `error` carries the `HTTPException`'s status code and detail. -/

/-- Outcome of a route handler: success payload, or an `HTTPException`
with status code and detail string. -/
inductive RouteResult (α : Type) where
  | ok (value : α)
  | error (status : Nat) (detail : String)
deriving Repr, DecidableEq

/-- The generation loop of `create_short_url_endpoint`
(`src/api/routes/urls.py:88`): up to `attempts` iterations, each drawing
the next candidate from the random source `gen` (successive results of
`generate_short_code()`, indexed from `i`) and stopping at the first one
for which `db.url_exists` is false; `none` when the budget runs out. -/
def gen_loop (db : DB) (gen : Nat → String) (i : Nat) : Nat → Option String
  | 0 => none
  | Nat.succ k =>
    if url_exists db (gen i) then gen_loop db gen (i + 1) k
    else some (gen i)

/-- `create_short_url_endpoint` (`src/api/routes/urls.py:56`).  `custom` is
`url_data.custom_code` (Python truthiness: `None` and `""` both take the
generation branch), `gen` the stream of generated candidates, `now` the
insertion timestamp.  An invalid custom code raises 400, an existing one
409; generation exhaustion after `max_attempts = 10` raises 500; otherwise
the record is inserted and returned.  The arms after a passed existence
check cannot see a duplicate insert in this sequential model; the
corresponding dead branch is rendered as a 500 outcome. -/
def create_short_url_endpoint (db : DB) (original_url_raw : String)
    (custom : Option String) (expires_at : Option String)
    (gen : Nat → String) (now : String) : DB × RouteResult URLRecord :=
  let original_url := normalize_url original_url_raw
  let codeRes : RouteResult String :=
    match custom with
    | some c =>
      if c.isEmpty then
        match gen_loop db gen 0 10 with
        | some code => .ok code
        | none => .error 500 "Failed to generate unique short code"
      else if !validate_short_code c then
        .error 400 "Custom code must be 3-20 alphanumeric characters"
      else if url_exists db c then
        .error 409 "Short code already exists"
      else .ok c
    | none =>
      match gen_loop db gen 0 10 with
      | some code => .ok code
      | none => .error 500 "Failed to generate unique short code"
  match codeRes with
  | .error s d => (db, .error s d)
  | .ok short_code =>
    match create_url db original_url short_code expires_at now with
    | none => (db, .error 500 "IntegrityError")
    | some (db2, rec) =>
      match rec with
      | some r => (db2, .ok r)
      | none => (db2, .error 500 "IntegrityError")

/-- `redirect_to_url` (`src/api/routes/urls.py:129`): 404 when the code
fails format validation, 404 when no active record exists, otherwise
increment the click count and answer with the record's original URL (the
302 redirect target). -/
def redirect_to_url (db : DB) (short_code : String) : DB × RouteResult String :=
  if !validate_short_code short_code then
    (db, .error 404 "Short URL not found")
  else
    match get_url_by_code db short_code with
    | none => (db, .error 404 "Short URL not found")
    | some r => (increment_clicks db short_code, .ok r.original_url)

/-- `delete_short_url` (`src/api/routes/urls.py:171`): 404 when the code
fails format validation, otherwise run the soft delete; 404 when it
reports no matched row, else the deletion confirmation carrying the code. -/
def delete_short_url (db : DB) (short_code : String) : DB × RouteResult String :=
  if !validate_short_code short_code then
    (db, .error 404 "Short URL not found")
  else
    let res := delete_url db short_code
    if !res.2 then (res.1, .error 404 "Short URL not found")
    else (res.1, .ok short_code)

/-- `update_short_url` (`src/api/routes/urls.py:211`): 404 when the code
fails format validation, 404 when no active record exists, otherwise
normalize the new URL, run the update and answer with the updated record.
The unreachable arm where the post-update lookup is empty (Python would
fault subscripting `None`) is rendered as a 500 outcome. -/
def update_short_url (db : DB) (short_code original_url_raw : String) :
    DB × RouteResult URLRecord :=
  if !validate_short_code short_code then
    (db, .error 404 "Short URL not found")
  else
    match get_url_by_code db short_code with
    | none => (db, .error 404 "Short URL not found")
    | some _ =>
      let res := update_url db short_code (normalize_url original_url_raw)
      match res.2 with
      | some r => (res.1, .ok r)
      | none => (res.1, .error 500 "TypeError")

/-- `get_url_info` (`src/api/routes/urls.py:268`): 404 when the code fails
format validation, 404 when no active record exists, otherwise the record
(read-only). -/
def get_url_info (db : DB) (short_code : String) : DB × RouteResult URLRecord :=
  if !validate_short_code short_code then
    (db, .error 404 "Short URL not found")
  else
    match get_url_by_code db short_code with
    | none => (db, .error 404 "Short URL not found")
    | some r => (db, .ok r)

/-- `increment_clicks` iterated `n` times sequentially on the same code. -/
def iterate_increment (db : DB) (short_code : String) : Nat → DB
  | 0 => db
  | Nat.succ k => increment_clicks (iterate_increment db short_code k) short_code

/-! ## Helper lemmas -/

/-- The soft-delete rewrite keeps every row's short code, so the
"some row has this code" test is unchanged by a delete. -/
lemma any_code_after_delete (rows : List URLRecord) (code c : String) :
    ((rows.map (fun r => if r.short_code == code then { r with is_active := false } else r)).any
        (fun r => r.short_code == c)) = rows.any (fun r => r.short_code == c) := by
  induction rows with
  | nil => rfl
  | cons a l ih =>
    by_cases h : a.short_code == code
    · simp only [List.map_cons, List.any_cons, h, if_pos, ih]
    · simp only [List.map_cons, List.any_cons, h, if_neg, ih, Bool.false_eq_true,
        not_false_iff, ite_false]

/-- After a soft delete of `code`, no row passes the active-lookup filter
for `code`: matching rows were just deactivated and the rest mismatch. -/
lemma filter_active_after_delete (rows : List URLRecord) (code : String) :
    ((rows.map (fun r => if r.short_code == code then { r with is_active := false } else r)).filter
        (fun r => r.short_code == code && r.is_active)) = [] := by
  rw [List.filter_eq_nil_iff]
  intro a ha
  rcases List.mem_map.mp ha with ⟨b, _, hb⟩
  by_cases h : b.short_code == code
  · rw [if_pos h] at hb
    subst hb
    simp [h]
  · rw [if_neg h] at hb
    subst hb
    simp [h]

/-- If no row carries `code`, the active-lookup filter for `code` is empty. -/
lemma filter_active_of_not_exists (db : DB) (code : String)
    (h : url_exists db code = false) :
    db.rows.filter (fun r => r.short_code == code && r.is_active) = [] := by
  rw [List.filter_eq_nil_iff]
  intro a ha
  have : ¬ (a.short_code == code) = true := by
    intro hc
    have : db.rows.any (fun r => r.short_code == code) = true :=
      List.any_eq_true.mpr ⟨a, ha, hc⟩
    rw [url_exists] at h
    simp [this] at h
  simp [this]

/-- Specification of a successful insert: when the code is unused,
`create_url` appends exactly one fresh active row with zero clicks and
returns it via the active lookup. -/
lemma create_url_roundtrip (db : DB) (url code : String) (expires : Option String)
    (now : String) (h : url_exists db code = false) :
    ∃ db2 r, create_url db url code expires now = some (db2, some r) ∧
      get_url_by_code db2 code = some r ∧ db2.rows = db.rows ++ [r] ∧
      db2.nextId = db.nextId + 1 ∧
      r.original_url = url ∧ r.short_code = code ∧ r.clicks = 0 ∧
      r.is_active = true ∧ r.expires_at = expires ∧ r.created_at = now ∧
      r.id = db.nextId := by
  refine ⟨{ rows := db.rows ++
      [{ id := db.nextId, original_url := url, short_code := code,
         created_at := now, expires_at := expires, clicks := 0,
         is_active := true }], nextId := db.nextId + 1 },
    { id := db.nextId, original_url := url, short_code := code,
      created_at := now, expires_at := expires, clicks := 0,
      is_active := true }, ?_, ?_, rfl, rfl, rfl, rfl, rfl, rfl, rfl, rfl, rfl⟩
  · rw [create_url, if_neg (by simp [h])]
    have hlook : get_url_by_code
        { rows := db.rows ++
            [{ id := db.nextId, original_url := url, short_code := code,
               created_at := now, expires_at := expires, clicks := 0,
               is_active := true }], nextId := db.nextId + 1 } code =
        some { id := db.nextId, original_url := url, short_code := code,
               created_at := now, expires_at := expires, clicks := 0,
               is_active := true } := by
      rw [get_url_by_code]
      show (List.filter _ (db.rows ++ [_])).head? = _
      rw [List.filter_append, filter_active_of_not_exists db code h]
      simp
    show some (_, get_url_by_code _ code) = _
    rw [hlook]
  · rw [get_url_by_code]
    show (List.filter _ (db.rows ++ [_])).head? = _
    rw [List.filter_append, filter_active_of_not_exists db code h]
    simp

/-- `validate_short_code` only accepts non-empty strings. -/
lemma validate_not_empty (code : String) (h : validate_short_code code = true) :
    code.isEmpty = false := by
  by_cases he : code.isEmpty
  · rw [validate_short_code, if_pos he] at h
    exact absurd h (by simp)
  · simpa using he

/-! ## Claims -/

/-- C6 (code bug): `validate_short_code` accepts `"abc\n"`, a 4-character
string containing the non-alphanumeric character `'\n'`, because Python's
`re.match(r"^[a-zA-Z0-9]+$", ...)` anchor `$` also matches just before a
trailing newline; the documented contract (3-20 alphanumeric characters,
every character in `[A-Za-z0-9]`) requires rejection. -/
theorem c6_validate_accepts_trailing_newline :
    validate_short_code "abc\n" = true ∧
    '\n' ∈ "abc\n".data ∧ isAlnumChar '\n' = false := by
  decide

/-- C9: `is_url_expired` is total: false on an absent (`none`) or empty
timestamp; on a timestamp whose (preprocessed) parse succeeds it is true
iff the current instant is strictly later than the parsed instant; on a
malformed timestamp (parse failure) it is false. -/
theorem c9_is_url_expired_cases (fromiso : String → Option Int) (now : Int) :
    is_url_expired fromiso now none = false ∧
    is_url_expired fromiso now (some "") = false ∧
    (∀ s t, s ≠ "" → fromiso (s.replace "Z" "+00:00") = some t →
      (is_url_expired fromiso now (some s) = true ↔ t < now)) ∧
    (∀ s, s ≠ "" → fromiso (s.replace "Z" "+00:00") = none →
      is_url_expired fromiso now (some s) = false) := by
  refine ⟨rfl, rfl, ?_, ?_⟩
  · intro s t hs hp
    have he : s.isEmpty = false := by
      rw [Bool.eq_false_iff]
      intro h
      exact hs ((String.isEmpty_iff s).mp h)
    simp [is_url_expired, he, hp]
  · intro s hs hp
    have he : s.isEmpty = false := by
      rw [Bool.eq_false_iff]
      intro h
      exact hs ((String.isEmpty_iff s).mp h)
    simp [is_url_expired, he, hp]

/-- C9 witness: the case split evaluated at a parser that succeeds with
instant 0 against current instant 1, and at a parser that always fails. -/
theorem c9_witness :
    (is_url_expired (fun _ => some 0) 1 (some "x") = true ↔ (0 : Int) < 1) ∧
    is_url_expired (fun _ => none) 1 (some "x") = false :=
  ⟨(c9_is_url_expired_cases (fun _ => some 0) 1).2.2.1 "x" 0 (by decide) rfl,
   (c9_is_url_expired_cases (fun _ => none) 1).2.2.2 "x" (by decide) rfl⟩

/-- C10: every per-code route handler (redirect, delete, update, info)
validates the supplied code's format first: when `validate_short_code`
fails, it answers 404 "Short URL not found" and the store state is
returned untouched, so a format-invalid code never reaches the
persistence layer. -/
theorem c10_invalid_code_never_reaches_store (db : DB) (code url : String)
    (h : validate_short_code code = false) :
    redirect_to_url db code = (db, .error 404 "Short URL not found") ∧
    delete_short_url db code = (db, .error 404 "Short URL not found") ∧
    update_short_url db code url = (db, .error 404 "Short URL not found") ∧
    get_url_info db code = (db, .error 404 "Short URL not found") := by
  refine ⟨?_, ?_, ?_, ?_⟩ <;>
    simp [redirect_to_url, delete_short_url, update_short_url, get_url_info, h]

/-- C10 witness: the four handlers on the format-invalid code `"ab"`
(too short) over an empty store. -/
theorem c10_witness :
    redirect_to_url ⟨[], 1⟩ "ab" = (⟨[], 1⟩, .error 404 "Short URL not found") ∧
    delete_short_url ⟨[], 1⟩ "ab" = (⟨[], 1⟩, .error 404 "Short URL not found") ∧
    update_short_url ⟨[], 1⟩ "ab" "x" = (⟨[], 1⟩, .error 404 "Short URL not found") ∧
    get_url_info ⟨[], 1⟩ "ab" = (⟨[], 1⟩, .error 404 "Short URL not found") :=
  c10_invalid_code_never_reaches_store ⟨[], 1⟩ "ab" "x" (by decide)

/-- C2: the existence check ranges over all records regardless of active
state — `url_exists` is true iff some row (active or soft-deleted)
carries the code — and creating with a custom code that already exists
(even on a soft-deleted row) answers 409 Conflict and leaves the store
unchanged. -/
theorem c2_exists_over_all_records (db : DB) (code url : String)
    (expires : Option String) (gen : Nat → String) (now : String) :
    (url_exists db code = true ↔ ∃ r ∈ db.rows, r.short_code = code) ∧
    (validate_short_code code = true → url_exists db code = true →
      create_short_url_endpoint db url (some code) expires gen now =
        (db, .error 409 "Short code already exists")) := by
  constructor
  · rw [url_exists, List.any_eq_true]
    constructor
    · rintro ⟨r, hr, hc⟩
      exact ⟨r, hr, by simpa using hc⟩
    · rintro ⟨r, hr, hc⟩
      exact ⟨r, hr, by simpa using hc⟩
  · intro hv he
    have hne : code.isEmpty = false := validate_not_empty code hv
    simp [create_short_url_endpoint, hne, hv, he]

/-- C2 witness: a store whose only row is soft-deleted under code
`"old"`; the existence characterization and the 409 on re-use of that
code. -/
theorem c2_witness :
    (url_exists ⟨[⟨1, "https://a.com", "old", "t0", none, 0, false⟩], 2⟩ "old" = true ↔
      ∃ r ∈ (⟨[⟨1, "https://a.com", "old", "t0", none, 0, false⟩], 2⟩ : DB).rows,
        r.short_code = "old") ∧
    create_short_url_endpoint ⟨[⟨1, "https://a.com", "old", "t0", none, 0, false⟩], 2⟩
        "https://b.com" (some "old") none (fun _ => "zzzzzz") "t1" =
      (⟨[⟨1, "https://a.com", "old", "t0", none, 0, false⟩], 2⟩,
       .error 409 "Short code already exists") :=
  ⟨(c2_exists_over_all_records ⟨[⟨1, "https://a.com", "old", "t0", none, 0, false⟩], 2⟩
      "old" "https://b.com" none (fun _ => "zzzzzz") "t1").1,
   (c2_exists_over_all_records ⟨[⟨1, "https://a.com", "old", "t0", none, 0, false⟩], 2⟩
      "old" "https://b.com" none (fun _ => "zzzzzz") "t1").2 (by decide) (by decide)⟩

/-- C8: round-trip of creation and lookup: for every URL, unused code and
optional expiration, `create_url` succeeds and the subsequent
`get_url_by_code` returns a record with the given original URL, zero
clicks and the active flag set. -/
theorem c8_create_then_lookup (db : DB) (url code : String)
    (expires : Option String) (now : String)
    (h : url_exists db code = false) :
    ∃ db2 r, create_url db url code expires now = some (db2, some r) ∧
      get_url_by_code db2 code = some r ∧
      r.original_url = url ∧ r.clicks = 0 ∧ r.is_active = true := by
  obtain ⟨db2, r, hc, hl, _, _, hurl, _, hclicks, hact, _⟩ :=
    create_url_roundtrip db url code expires now h
  exact ⟨db2, r, hc, hl, hurl, hclicks, hact⟩

/-- C8 witness: creating `"abc"` in the empty store and looking it up. -/
theorem c8_witness :
    ∃ db2 r,
      create_url ⟨[], 1⟩ "https://example.com" "abc" none "t0" = some (db2, some r) ∧
      get_url_by_code db2 "abc" = some r ∧
      r.original_url = "https://example.com" ∧ r.clicks = 0 ∧ r.is_active = true :=
  c8_create_then_lookup ⟨[], 1⟩ "https://example.com" "abc" none "t0" (by decide)

/-- C1 counterexample: after a successful delete of `"abc"`, the active
lookup reports not-found, but a second delete of the same code reports
success again (the soft-delete `UPDATE` still matches the row by code and
SQLite counts matched rows), contradicting "a second delete(code) also
reports not-found". -/
theorem c1_counterexample :
    (delete_short_url ⟨[⟨1, "https://example.com", "abc", "t0", none, 0, true⟩], 2⟩ "abc").2 =
      .ok "abc" ∧
    get_url_by_code
      (delete_short_url ⟨[⟨1, "https://example.com", "abc", "t0", none, 0, true⟩], 2⟩ "abc").1
      "abc" = none ∧
    (delete_short_url
      (delete_short_url ⟨[⟨1, "https://example.com", "abc", "t0", none, 0, true⟩], 2⟩ "abc").1
      "abc").2 = .ok "abc" ∧
    (delete_short_url
      (delete_short_url ⟨[⟨1, "https://example.com", "abc", "t0", none, 0, true⟩], 2⟩ "abc").1
      "abc").2 ≠ .error 404 "Short URL not found" := by
  decide

/-- C1 amended: after a successful `delete(code)` the active lookup
reports not-found, and a second `delete(code)` neither crashes nor
escalates, but it reports success again (not not-found): the soft-delete
`UPDATE` matches the row by code regardless of active state. -/
theorem c1_delete_visibility_amended (db : DB) (code : String)
    (hv : validate_short_code code = true) (he : url_exists db code = true) :
    (delete_short_url db code).2 = .ok code ∧
    get_url_by_code (delete_short_url db code).1 code = none ∧
    (delete_short_url (delete_short_url db code).1 code).2 = .ok code := by
  have hstep : ∀ d : DB, d.rows.any (fun r => r.short_code == code) = true →
      delete_short_url d code =
        (⟨d.rows.map (fun r =>
            if r.short_code == code then { r with is_active := false } else r),
          d.nextId⟩, .ok code) := by
    intro d hd
    rw [delete_short_url, if_neg (by simp [hv])]
    show (if !(delete_url d code).2 then ((delete_url d code).1, RouteResult.error 404 "Short URL not found")
          else ((delete_url d code).1, RouteResult.ok code)) = _
    have h2 : (delete_url d code).2 = true := hd
    rw [h2]
    rfl
  have he2 : db.rows.any (fun r => r.short_code == code) = true := he
  have h1 := hstep db he2
  have hany : ((db.rows.map (fun r =>
      if r.short_code == code then { r with is_active := false } else r)).any
        (fun r => r.short_code == code)) = true := by
    rw [any_code_after_delete]
    exact he2
  refine ⟨by rw [h1], ?_, ?_⟩
  · rw [h1]
    show ((db.rows.map (fun r =>
        if r.short_code == code then { r with is_active := false } else r)).filter
          (fun r => r.short_code == code && r.is_active)).head? = none
    rw [filter_active_after_delete]
    rfl
  · rw [h1]
    rw [hstep ⟨db.rows.map (fun r =>
        if r.short_code == code then { r with is_active := false } else r),
      db.nextId⟩ hany]

/-- C1 witness: the amended statement on a one-row store holding an
active record under `"abc"`. -/
theorem c1_witness :
    (delete_short_url ⟨[⟨1, "https://a.com", "abc", "t0", none, 0, true⟩], 2⟩ "abc").2 =
      .ok "abc" ∧
    get_url_by_code
      (delete_short_url ⟨[⟨1, "https://a.com", "abc", "t0", none, 0, true⟩], 2⟩ "abc").1
      "abc" = none ∧
    (delete_short_url
      (delete_short_url ⟨[⟨1, "https://a.com", "abc", "t0", none, 0, true⟩], 2⟩ "abc").1
      "abc").2 = .ok "abc" :=
  c1_delete_visibility_amended ⟨[⟨1, "https://a.com", "abc", "t0", none, 0, true⟩], 2⟩
    "abc" (by decide) (by decide)

/-- C4 counterexample: a store whose only record is inactive under
`"abc"` is changed by `increment_clicks "abc"` — the inactive record's
click count goes from 0 to 1, contradicting "leaves the store
unchanged". -/
theorem c4_counterexample :
    increment_clicks ⟨[⟨1, "https://example.com", "abc", "t0", none, 0, false⟩], 2⟩ "abc" ≠
      ⟨[⟨1, "https://example.com", "abc", "t0", none, 0, false⟩], 2⟩ ∧
    increment_clicks ⟨[⟨1, "https://example.com", "abc", "t0", none, 0, false⟩], 2⟩ "abc" =
      ⟨[⟨1, "https://example.com", "abc", "t0", none, 1, false⟩], 2⟩ := by
  decide

/-- C4 amended: `increment_clicks` has no active-state filter: the clicks
of a record matching the code are incremented even when the record is
inactive. -/
theorem c4_amended_inactive_still_incremented (db : DB) (code : String) (i : Nat)
    (r : URLRecord) (hi : db.rows[i]? = some r) (hcode : r.short_code = code)
    (_hinact : r.is_active = false) :
    (increment_clicks db code).rows[i]? = some { r with clicks := r.clicks + 1 } := by
  simp [increment_clicks, List.getElem?_map, hi, hcode]

/-- C4 witness: the amended statement on a one-row store holding an
inactive record with 5 clicks. -/
theorem c4_witness :
    (increment_clicks ⟨[⟨1, "https://a.com", "abc", "t0", none, 5, false⟩], 2⟩ "abc").rows[0]? =
      some ⟨1, "https://a.com", "abc", "t0", none, 6, false⟩ :=
  c4_amended_inactive_still_incremented
    ⟨[⟨1, "https://a.com", "abc", "t0", none, 5, false⟩], 2⟩ "abc" 0
    ⟨1, "https://a.com", "abc", "t0", none, 5, false⟩ rfl rfl rfl

/-- Pointwise "no click count decreases" between two store states: every
row keeps its position and its click count does not drop. -/
def clicks_mono (db db2 : DB) : Prop :=
  ∀ (i : Nat) (r : URLRecord), db.rows[i]? = some r →
    ∃ r2 : URLRecord, db2.rows[i]? = some r2 ∧ r.clicks ≤ r2.clicks

/-- A row-wise rewrite that never lowers a click count is `clicks_mono`. -/
lemma clicks_mono_of_map (db : DB) (f : URLRecord → URLRecord)
    (hf : ∀ r, r.clicks ≤ (f r).clicks) :
    clicks_mono db ⟨db.rows.map f, db.nextId⟩ := by
  intro i r hi
  refine ⟨f r, ?_, hf r⟩
  show (db.rows.map f)[i]? = some (f r)
  rw [List.getElem?_map, hi]
  rfl

/-- Appending rows at the end keeps every existing row in place. -/
lemma clicks_mono_of_append (db : DB) (l : List URLRecord) (n : Nat) :
    clicks_mono db ⟨db.rows ++ l, n⟩ := by
  intro i r hi
  refine ⟨r, ?_, Nat.le_refl _⟩
  show (db.rows ++ l)[i]? = some r
  have hlt : i < db.rows.length := by
    obtain ⟨h, _⟩ := List.getElem?_eq_some_iff.mp hi
    exact h
  rw [List.getElem?_append, if_pos hlt]
  exact hi

/-- `n` sequential increments on a row carrying the code add exactly `n`
to its click count. -/
lemma iterate_increment_adds (db : DB) (code : String) (i : Nat) (r : URLRecord)
    (hi : db.rows[i]? = some r) (hc : r.short_code = code) :
    ∀ n, (iterate_increment db code n).rows[i]? =
      some { r with clicks := r.clicks + n } := by
  intro n
  induction n with
  | zero => exact hi
  | succ k ih =>
    have hrows : (iterate_increment db code (k + 1)).rows =
        (iterate_increment db code k).rows.map (fun x =>
          if x.short_code == code then { x with clicks := x.clicks + 1 } else x) := rfl
    rw [hrows, List.getElem?_map, ih]
    simp [hc, Nat.add_assoc]

/-- C5: click counts are monotone: no store operation (`create_url`,
`update_url`, `delete_url`, `increment_clicks`) lowers any record's
`clicks`, and `n` sequential `increment_clicks` calls on a record carrying
the code raise its count by exactly `n` (so a record created with 0 clicks
reaches exactly `n`). -/
theorem c5_clicks_monotone :
    (∀ db url code expires now db2 rec,
        create_url db url code expires now = some (db2, rec) → clicks_mono db db2) ∧
    (∀ db code newUrl, clicks_mono db (update_url db code newUrl).1) ∧
    (∀ db code, clicks_mono db (delete_url db code).1) ∧
    (∀ db code, clicks_mono db (increment_clicks db code)) ∧
    (∀ (db : DB) (code : String) (i n : Nat) (r : URLRecord),
        db.rows[i]? = some r → r.short_code = code →
        (iterate_increment db code n).rows[i]? =
          some { r with clicks := r.clicks + n }) := by
  refine ⟨?_, ?_, ?_, ?_, ?_⟩
  · intro db url code expires now db2 rec hc
    rw [create_url] at hc
    by_cases h : url_exists db code
    · rw [if_pos h] at hc
      exact absurd hc (by simp)
    · rw [if_neg h] at hc
      have hpair := Option.some.inj hc
      have hdb2 : db2 = ⟨db.rows ++
          [{ id := db.nextId, original_url := url, short_code := code,
             created_at := now, expires_at := expires, clicks := 0,
             is_active := true }], db.nextId + 1⟩ :=
        (Prod.ext_iff.mp hpair).1.symm
      rw [hdb2]
      exact clicks_mono_of_append db _ _
  · intro db code newUrl
    exact clicks_mono_of_map db _ (fun r => by
      by_cases h : (r.short_code == code) = true <;> simp [h])
  · intro db code
    exact clicks_mono_of_map db _ (fun r => by
      by_cases h : (r.short_code == code) = true <;> simp [h])
  · intro db code
    exact clicks_mono_of_map db _ (fun r => by
      by_cases h : (r.short_code == code) = true <;> simp [h])
  · intro db code i n r hi hc
    exact iterate_increment_adds db code i r hi hc n

/-- C5 witness: on a one-row active store with 0 clicks under `"abc"`,
an increment does not lower the count and three sequential increments
reach exactly 3. -/
theorem c5_witness :
    (∃ r2, (increment_clicks ⟨[⟨1, "https://a.com", "abc", "t0", none, 0, true⟩], 2⟩
        "abc").rows[0]? = some r2 ∧
      (⟨1, "https://a.com", "abc", "t0", none, 0, true⟩ : URLRecord).clicks ≤ r2.clicks) ∧
    (iterate_increment ⟨[⟨1, "https://a.com", "abc", "t0", none, 0, true⟩], 2⟩
        "abc" 3).rows[0]? = some ⟨1, "https://a.com", "abc", "t0", none, 3, true⟩ :=
  ⟨c5_clicks_monotone.2.2.2.1 ⟨[⟨1, "https://a.com", "abc", "t0", none, 0, true⟩], 2⟩
      "abc" 0 ⟨1, "https://a.com", "abc", "t0", none, 0, true⟩ rfl,
   c5_clicks_monotone.2.2.2.2 ⟨[⟨1, "https://a.com", "abc", "t0", none, 0, true⟩], 2⟩
      "abc" 0 3 ⟨1, "https://a.com", "abc", "t0", none, 0, true⟩ rfl rfl⟩

/-- C3: expiration does not gate visibility: an active record whose
expiration timestamp is strictly in the past (i.e. `is_url_expired` is
true for it under some parse of its timestamp) is still returned by the
active lookup, and the redirect path still resolves it — neither consults
`is_url_expired`. -/
theorem c3_expired_record_still_resolvable (db : DB) (code : String) (r : URLRecord)
    (fromiso : String → Option Int) (now : Int)
    (hmem : r ∈ db.rows) (hcode : r.short_code = code) (hact : r.is_active = true)
    (_hexp : is_url_expired fromiso now r.expires_at = true) :
    ∃ r2 : URLRecord, get_url_by_code db code = some r2 ∧ r2.short_code = code ∧
      r2.is_active = true ∧
      (validate_short_code code = true →
        redirect_to_url db code = (increment_clicks db code, .ok r2.original_url)) := by
  have hpr : ((fun x : URLRecord => x.short_code == code && x.is_active) r) = true := by
    simp [hcode, hact]
  have hne : db.rows.filter (fun x => x.short_code == code && x.is_active) ≠ [] := by
    intro h0
    exact List.filter_eq_nil_iff.mp h0 r hmem hpr
  cases hfil : db.rows.filter (fun x => x.short_code == code && x.is_active) with
  | nil => exact absurd hfil hne
  | cons a l =>
    have ha_mem : a ∈ db.rows.filter (fun x => x.short_code == code && x.is_active) := by
      rw [hfil]
      exact List.mem_cons_self a l
    have hpa : ((fun x : URLRecord => x.short_code == code && x.is_active) a) = true :=
      (List.mem_filter.mp ha_mem).2
    have hcode2 : a.short_code = code := by
      have := (Bool.and_eq_true _ _).mp hpa
      simpa using this.1
    have hact2 : a.is_active = true := by
      simpa using ((Bool.and_eq_true _ _).mp hpa).2
    have hlook : get_url_by_code db code = some a := by
      rw [get_url_by_code, hfil]
      rfl
    refine ⟨a, hlook, hcode2, hact2, ?_⟩
    intro hv
    rw [redirect_to_url, if_neg (by simp [hv]), hlook]

/-- C3 witness: a one-row store whose active record under `"abc"` carries
a timestamp that parses (under the sample parse) to instant 0, with the
current instant 1 — expired, yet looked up and redirected. -/
theorem c3_witness :
    ∃ r2 : URLRecord,
      get_url_by_code ⟨[⟨1, "https://a.com", "abc", "t0", some "e", 0, true⟩], 2⟩ "abc" =
        some r2 ∧ r2.short_code = "abc" ∧ r2.is_active = true ∧
      (validate_short_code "abc" = true →
        redirect_to_url ⟨[⟨1, "https://a.com", "abc", "t0", some "e", 0, true⟩], 2⟩ "abc" =
          (increment_clicks ⟨[⟨1, "https://a.com", "abc", "t0", some "e", 0, true⟩], 2⟩ "abc",
           .ok r2.original_url)) :=
  c3_expired_record_still_resolvable
    ⟨[⟨1, "https://a.com", "abc", "t0", some "e", 0, true⟩], 2⟩ "abc"
    ⟨1, "https://a.com", "abc", "t0", some "e", 0, true⟩
    (fun _ => some 0) 1 (List.mem_cons_self _ _) rfl rfl (by decide)

/-- When every candidate in the budget already exists, the generation loop
exhausts its attempts and yields nothing. -/
lemma gen_loop_none (db : DB) (gen : Nat → String) :
    ∀ (a i : Nat), (∀ j, j < a → url_exists db (gen (i + j)) = true) →
      gen_loop db gen i a = none := by
  intro a
  induction a with
  | zero => intro i h; rfl
  | succ k ih =>
    intro i h
    have h0 : url_exists db (gen i) = true := by
      simpa using h 0 (Nat.succ_pos k)
    show (if url_exists db (gen i) then gen_loop db gen (i + 1) k else some (gen i)) = none
    rw [h0, if_pos rfl]
    refine ih (i + 1) (fun j hj => ?_)
    have := h (j + 1) (Nat.succ_lt_succ hj)
    rwa [show i + (j + 1) = (i + 1) + j by omega] at this

/-- The generation loop returns the first candidate in the budget that
does not yet exist. -/
lemma gen_loop_first (db : DB) (gen : Nat → String) :
    ∀ (a j i : Nat), j < a → url_exists db (gen (i + j)) = false →
      (∀ m, m < j → url_exists db (gen (i + m)) = true) →
      gen_loop db gen i a = some (gen (i + j)) := by
  intro a
  induction a with
  | zero => intro j i hj; exact absurd hj (Nat.not_lt_zero j)
  | succ k ih =>
    intro j i hj hfresh hmin
    show (if url_exists db (gen i) then gen_loop db gen (i + 1) k
          else some (gen i)) = some (gen (i + j))
    cases j with
    | zero =>
      have h0 : url_exists db (gen i) = false := by simpa using hfresh
      rw [h0]
      simp
    | succ j2 =>
      have h0 : url_exists db (gen i) = true := by
        simpa using hmin 0 (Nat.succ_pos j2)
      rw [h0, if_pos rfl]
      have hrec := ih j2 (i + 1) (Nat.lt_of_succ_lt_succ hj)
        (by rwa [show (i + 1) + j2 = i + (j2 + 1) by omega])
        (fun m hm => by
          have := hmin (m + 1) (Nat.succ_lt_succ hm)
          rwa [show i + (m + 1) = (i + 1) + m by omega] at this)
      rw [hrec, show (i + 1) + j2 = i + (j2 + 1) by omega]

/-- C7: with no custom code, the allocation loop draws at most 10
candidates and takes the first unused one — the created record carries
that code and is appended to the store; if all 10 candidates already
exist, the endpoint answers 500 ("Failed to generate unique short code")
and the store is unchanged. -/
theorem c7_generation_bounded_retry (db : DB) (url : String)
    (expires : Option String) (gen : Nat → String) (now : String) :
    ((∀ j, j < 10 → url_exists db (gen j) = true) →
      create_short_url_endpoint db url none expires gen now =
        (db, .error 500 "Failed to generate unique short code")) ∧
    (∀ j, j < 10 → url_exists db (gen j) = false →
      (∀ m, m < j → url_exists db (gen m) = true) →
      ∃ db2 r, create_short_url_endpoint db url none expires gen now = (db2, .ok r) ∧
        r.short_code = gen j ∧ r.original_url = normalize_url url ∧
        db2.rows = db.rows ++ [r]) := by
  constructor
  · intro hall
    have hnone : gen_loop db gen 0 10 = none :=
      gen_loop_none db gen 10 0 (fun j hj => by
        rw [Nat.zero_add]
        exact hall j hj)
    simp [create_short_url_endpoint, hnone]
  · intro j hj hf hmin
    have hsome : gen_loop db gen 0 10 = some (gen j) := by
      have := gen_loop_first db gen 10 j 0 hj
        (by rwa [Nat.zero_add]) (fun m hm => by
          rw [Nat.zero_add]
          exact hmin m hm)
      rwa [Nat.zero_add] at this
    obtain ⟨db2, r, hc, _, hrows, _, hurl, hcode, _, _, _, _, _⟩ :=
      create_url_roundtrip db (normalize_url url) (gen j) expires now hf
    refine ⟨db2, r, ?_, hcode, hurl, hrows⟩
    simp [create_short_url_endpoint, hsome, hc]

/-- C7 witness: exhaustion on a store already holding the only candidate
the sample source ever produces, and success at the first candidate on an
empty store. -/
theorem c7_witness :
    (create_short_url_endpoint ⟨[⟨1, "https://a.com", "aaaaaa", "t0", none, 0, true⟩], 2⟩
        "https://b.com" none none (fun _ => "aaaaaa") "t1" =
      (⟨[⟨1, "https://a.com", "aaaaaa", "t0", none, 0, true⟩], 2⟩,
       .error 500 "Failed to generate unique short code")) ∧
    (∃ db2 r, create_short_url_endpoint ⟨[], 1⟩ "https://b.com" none none
        (fun _ => "zzzzzz") "t1" = (db2, .ok r) ∧
      r.short_code = (fun _ : Nat => "zzzzzz") 0 ∧
      r.original_url = normalize_url "https://b.com" ∧
      db2.rows = (⟨[], 1⟩ : DB).rows ++ [r]) :=
  ⟨(c7_generation_bounded_retry
      ⟨[⟨1, "https://a.com", "aaaaaa", "t0", none, 0, true⟩], 2⟩
      "https://b.com" none (fun _ => "aaaaaa") "t1").1 (fun j hj => by decide),
   (c7_generation_bounded_retry ⟨[], 1⟩ "https://b.com" none
      (fun _ => "zzzzzz") "t1").2 0 (by decide) (by decide)
      (fun m hm => absurd hm (Nat.not_lt_zero m))⟩
